import Mathlib

/-!
Shallow embedding of the xiaozhi-server WebSocket gateway core
(`src/core/gateway_server.py`) and proofs about it.

The gateway terminates WebSocket connections, authenticates each device by
its `device-id` header, normalizes inbound frames into chat-turn sequences,
calls an upstream chat-completion backend, and relays the reply or an error
frame back on the same connection.

Modelling conventions:
* JSON values decoded by `json.loads` are the inductive `Json`; a decoded
  JSON object is `Json.obj fields` with unique keys (Python's decoder keeps
  the last duplicate, so the resulting dict has unique keys).
* Python truthiness (`if not messages:` etc.) is `Json.truthy` /
  `otruthy`; Python's value-returning `or` is `pyOr`.
* `json.loads raw` itself is an input of the model: a text frame carries the
  raw string together with its decode result (`Except Unit Json`), `.error`
  standing for `json.JSONDecodeError`.
* The network side of the backend call (`openai` client plus
  `asyncio.to_thread`) is an oracle `backend : Json → Except String String`
  mapping the `messages` value to either the reply text or the string of the
  raised exception.  The pure post-processing of an upstream response in
  `_call_openai` is modelled separately as `call_openai`.
* What the session does is recorded as a trace of `Action`s: frames sent,
  backend invocations, and closing the socket.
-/

namespace Gateway

/-- JSON values as decoded by Python's `json.loads`. -/
inductive Json where
  | null
  | bool (b : Bool)
  | num (n : Int)
  | str (s : String)
  | arr (elems : List Json)
  | obj (fields : List (String × Json))


/-- Python truthiness of a decoded JSON value: `None`, `False`, `0`, `""`,
`[]` and `\x7b\x7d` are falsy, everything else truthy. -/
def Json.truthy : Json → Bool
  | .null => false
  | .bool b => b
  | .num n => n != 0
  | .str s => s != ""
  | .arr elems => !elems.isEmpty
  | .obj fields => !fields.isEmpty

/-- `d.get(key)` on a decoded JSON object: `none` when the value is not an
object or the key is absent (Python returns `None`). Decoded objects have
unique keys, so first-match lookup is dict lookup. -/
def Json.get : Json → String → Option Json
  | .obj fields, key => fields.lookup key
  | _, _ => none

/-- Truthiness of a `d.get(key)` result: Python `None` is falsy. -/
def otruthy : Option Json → Bool
  | none => false
  | some j => j.truthy

/-- Python's value-returning `or`: the first operand if truthy, else the
second. -/
def pyOr (a b : Option Json) : Option Json :=
  if otruthy a then a else b

/-- One inbound WebSocket frame: a binary frame, or a text frame carrying the
raw string and the result of `json.loads` on it. -/
inductive WsMessage where
  | bytes (data : List Nat)
  | text (raw : String) (loads : Except Unit Json)


/-- Observable steps taken by a connection session. -/
inductive Action where
  | send (payload : Json)
  | callBackend (messages : Json)
  | close


/-- `_send_error` (gateway_server.py:153-157): the error frame payload.
`request_id` is attached only when truthy (`if request_id:`); the default
call sites pass `None`. -/
def send_error (message : String) (request_id : Option Json) : Json :=
  Json.obj
    (("type", Json.str "error") :: ("message", Json.str message) ::
      (if otruthy request_id then [("request_id", request_id.getD Json.null)] else []))

/-- The success frame payload (gateway_server.py:124-130): `request_id` is
attached only when truthy.  A `None` device id serializes as JSON `null`. -/
def response_payload (device_id : Option String) (content : String)
    (request_id : Option Json) : Json :=
  Json.obj
    (("type", Json.str "response") ::
      ("device_id", (device_id.map Json.str).getD Json.null) ::
      ("content", Json.str content) ::
      (if otruthy request_id then [("request_id", request_id.getD Json.null)] else []))

/-- `_parse_payload` (gateway_server.py:143-151): on `JSONDecodeError` the
entire raw text becomes the fallback envelope `\x7b"text": raw\x7d`; a decoded
non-object yields `None` (invalid). -/
def parse_payload (message : String) (loads : Except Unit Json) : Option Json :=
  match loads with
  | .error _ => some (Json.obj [("text", Json.str message)])
  | .ok parsed =>
    match parsed with
    | .obj fields => some (Json.obj fields)
    | _ => none

/-- The tail of `_handle_message` (gateway_server.py:117-131): invoke the
backend with the normalized `messages`, then emit either the error frame
carrying the exception detail or the response frame. -/
def dispatch (backend : Json → Except String String) (device_id : Option String)
    (messages : Json) (request_id : Option Json) : List Action :=
  match backend messages with
  | .error exc =>
    [.callBackend messages, .send (send_error ("OpenAI请求失败: " ++ exc) request_id)]
  | .ok response_text =>
    [.callBackend messages, .send (response_payload device_id response_text request_id)]

/-- `_handle_message` (gateway_server.py:98-131): reject binary frames, parse
the payload, take a truthy `messages` verbatim, otherwise fall back to the
first truthy of `text`/`content`/`prompt` wrapped as a single user turn, else
report the missing-field error; then dispatch to the backend. -/
def handle_message (backend : Json → Except String String) (device_id : Option String)
    (message : WsMessage) : List Action :=
  match message with
  | .bytes _ => [.send (send_error "仅支持文本消息。" none)]
  | .text raw loads =>
    match parse_payload raw loads with
    | none => [.send (send_error "消息格式不合法。" none)]
    | some payload =>
      let messages := payload.get "messages"
      if otruthy messages then
        dispatch backend device_id (messages.getD Json.null) (payload.get "request_id")
      else
        let text := pyOr (payload.get "text") (pyOr (payload.get "content") (payload.get "prompt"))
        if otruthy text then
          dispatch backend device_id
            (Json.arr [Json.obj [("role", Json.str "user"), ("content", text.getD Json.null)]])
            (payload.get "request_id")
        else
          [.send (send_error "缺少messages或text字段。" none)]

/-- The gateway policy configured at startup (gateway_server.py:46-47). -/
structure GatewayConfig where
  require_device_id : Bool
  allowed_devices : List String


/-- `key.lower()` on a header name: ASCII lower-casing character by character
(header names are ASCII tokens). -/
def lower (s : String) : String :=
  ⟨s.data.map Char.toLower⟩

/-- `dict(websocket.request.headers)`: the websockets `Headers` mapping keys
its internal dict by `key.lower()`, so the dict built from it has lower-cased
keys. -/
def headers_dict (raw : List (String × String)) : List (String × String) :=
  raw.map (fun kv => (lower kv.1, kv.2))

/-- `headers.get("device-id")` (gateway_server.py:78-79). -/
def get_device_id (raw : List (String × String)) : Option String :=
  (headers_dict raw).lookup "device-id"

/-- Truthiness of the device id (`not device_id`): absent or empty is falsy. -/
def ostr_truthy : Option String → Bool
  | none => false
  | some s => s != ""

/-- `device_id not in self.allowed_devices`, negated: a `None` device id is
never a member of a set of strings. -/
def device_mem : Option String → List String → Bool
  | none, _ => false
  | some d, allowed => allowed.contains d

/-- `_handle_connection` (gateway_server.py:77-96): the authentication gate
followed by the receive loop.  On rejection: one error frame, then close.  On
acceptance the session handles each received frame in order. -/
def handle_connection (cfg : GatewayConfig) (backend : Json → Except String String)
    (headers : List (String × String)) (msgs : List WsMessage) : List Action :=
  let device_id := get_device_id headers
  if cfg.require_device_id && !ostr_truthy device_id then
    [.send (send_error "缺少device-id，拒绝连接。" none), .close]
  else if !cfg.allowed_devices.isEmpty && !device_mem device_id cfg.allowed_devices then
    [.send (send_error "device-id未授权。" none), .close]
  else
    msgs.flatMap (handle_message backend device_id)

/-- The shape of an upstream completion message (`choice.message`):
`content` is an optional string. -/
structure UpstreamMessage where
  content : Option String


/-- One upstream choice; `getattr(choice, "message", None)` is modelled as an
optional message. -/
structure UpstreamChoice where
  message : Option UpstreamMessage


/-- The upstream chat-completion response: a list of choices. -/
structure UpstreamResponse where
  choices : List UpstreamChoice


/-- Python's value-returning `or` on an optional string against a default:
`content or ""`. -/
def pyStrOr (a : Option String) (b : String) : String :=
  match a with
  | some s => if s != "" then s else b
  | none => b

/-- `_call_openai`'s post-processing of the upstream response
(gateway_server.py:138-141): the first choice's message content, or `""` when
there are no choices, no message, or no content. -/
def call_openai (response : UpstreamResponse) : String :=
  match response.choices.head? with
  | none => ""
  | some choice =>
    match choice.message with
    | none => ""
    | some msg => pyStrOr msg.content ""

end Gateway

namespace Gateway

theorem close_notin_dispatch (backend : Json → Except String String) (d : Option String)
    (m : Json) (r : Option Json) : Action.close ∉ dispatch backend d m r := by
  unfold dispatch
  cases backend m <;> simp

theorem close_notin_handle_message (backend : Json → Except String String)
    (d : Option String) (msg : WsMessage) :
    Action.close ∉ handle_message backend d msg := by
  cases msg with
  | bytes data => simp [handle_message]
  | text raw loads =>
    rcases h : parse_payload raw loads with _ | payload
    · simp [handle_message, h]
    · simp only [handle_message, h]
      split
      · exact close_notin_dispatch backend d _ _
      · split
        · exact close_notin_dispatch backend d _ _
        · simp

/-- C1: the authentication gate rejects exactly when `require_device_id` is set
and no (truthy) device id was supplied, or `allowed_devices` is non-empty and
the id is not a member; on rejection the trace is exactly one error frame
followed by a close and the backend is never invoked; otherwise the session
proceeds to handle every received frame and never closes the socket itself. -/
theorem c1_auth_gate (cfg : GatewayConfig) (backend : Json → Except String String)
    (headers : List (String × String)) (msgs : List WsMessage) :
    (((cfg.require_device_id && !ostr_truthy (get_device_id headers))
        || (!cfg.allowed_devices.isEmpty
            && !device_mem (get_device_id headers) cfg.allowed_devices)) = true →
      ∃ m, handle_connection cfg backend headers msgs =
          [.send (Json.obj [("type", Json.str "error"), ("message", Json.str m)]), .close] ∧
        ∀ ms, Action.callBackend ms ∉ handle_connection cfg backend headers msgs) ∧
    (((cfg.require_device_id && !ostr_truthy (get_device_id headers))
        || (!cfg.allowed_devices.isEmpty
            && !device_mem (get_device_id headers) cfg.allowed_devices)) = false →
      handle_connection cfg backend headers msgs =
        msgs.flatMap (handle_message backend (get_device_id headers)) ∧
      Action.close ∉ handle_connection cfg backend headers msgs) := by
  constructor
  · intro h
    simp only [Bool.or_eq_true] at h
    rcases h with h1 | h2
    · refine ⟨"缺少device-id，拒绝连接。", ?_, ?_⟩
      · simp [handle_connection, h1, send_error, otruthy]
      · intro ms
        simp [handle_connection, h1, send_error, otruthy]
    · by_cases h1 : (cfg.require_device_id && !ostr_truthy (get_device_id headers)) = true
      · refine ⟨"缺少device-id，拒绝连接。", ?_, ?_⟩
        · simp [handle_connection, h1, send_error, otruthy]
        · intro ms
          simp [handle_connection, h1, send_error, otruthy]
      · refine ⟨"device-id未授权。", ?_, ?_⟩
        · simp [handle_connection, h1, h2, send_error, otruthy]
        · intro ms
          simp [handle_connection, h1, h2, send_error, otruthy]
  · intro h
    simp only [Bool.or_eq_false_iff] at h
    obtain ⟨h1, h2⟩ := h
    have he : handle_connection cfg backend headers msgs =
        msgs.flatMap (handle_message backend (get_device_id headers)) := by
      simp [handle_connection, h1, h2]
    refine ⟨he, ?_⟩
    rw [he]
    intro hc
    rw [List.mem_flatMap] at hc
    obtain ⟨m, _, hm⟩ := hc
    exact close_notin_handle_message backend (get_device_id headers) m hm

/-- Witness for C1: a connection with `require_device_id = true` and no
headers is rejected with one error frame, a close, and no backend call. -/
theorem c1_auth_gate_witness :
    ∃ m, handle_connection ⟨true, []⟩ (fun _ => .ok "hi") [] [] =
        [.send (Json.obj [("type", Json.str "error"), ("message", Json.str m)]), .close] ∧
      ∀ ms, Action.callBackend ms ∉ handle_connection ⟨true, []⟩ (fun _ => .ok "hi") [] [] :=
  (c1_auth_gate ⟨true, []⟩ (fun _ => .ok "hi") [] []).1 (by decide)

end Gateway

namespace Gateway

theorem send_error_get_request_id (m : String) (r : Option Json) :
    (send_error m r).get "request_id" = if otruthy r then r else none := by
  rcases r with _ | j
  · simp [send_error, Json.get, otruthy, List.lookup]
  · by_cases h : j.truthy
    · simp [send_error, Json.get, otruthy, h, List.lookup]
    · simp [send_error, Json.get, otruthy, h, List.lookup]

theorem response_payload_get_request_id (d : Option String) (t : String) (r : Option Json) :
    (response_payload d t r).get "request_id" = if otruthy r then r else none := by
  rcases r with _ | j
  · simp [response_payload, Json.get, otruthy, List.lookup]
  · by_cases h : j.truthy
    · simp [response_payload, Json.get, otruthy, h, List.lookup]
    · simp [response_payload, Json.get, otruthy, h, List.lookup]

theorem send_mem_dispatch (backend : Json → Except String String) (d : Option String)
    (m : Json) (r : Option Json) (p : Json) :
    Action.send p ∈ dispatch backend d m r →
      (∃ exc, backend m = .error exc ∧ p = send_error ("OpenAI请求失败: " ++ exc) r) ∨
      (∃ t, backend m = .ok t ∧ p = response_payload d t r) := by
  unfold dispatch
  cases hb : backend m with
  | error exc =>
    intro h
    simp at h
    exact Or.inl ⟨exc, rfl, h⟩
  | ok t =>
    intro h
    simp at h
    exact Or.inr ⟨t, rfl, h⟩

theorem dispatch_request_id_echo (backend : Json → Except String String)
    (d : Option String) (m : Json) (rid : Json) (p v : Json)
    (hmem : Action.send p ∈ dispatch backend d m (some rid))
    (hv : p.get "request_id" = some v) : v = rid := by
  rcases send_mem_dispatch _ _ _ _ _ hmem with ⟨exc, _, hpe⟩ | ⟨t, _, hpe⟩
  · subst hpe
    rw [send_error_get_request_id] at hv
    by_cases ht : otruthy (some rid) = true
    · rw [if_pos ht] at hv
      exact (Option.some.inj hv).symm
    · rw [if_neg ht] at hv
      cases hv
  · subst hpe
    rw [response_payload_get_request_id] at hv
    by_cases ht : otruthy (some rid) = true
    · rw [if_pos ht] at hv
      exact (Option.some.inj hv).symm
    · rw [if_neg ht] at hv
      cases hv

/-- C2: for a text frame whose decoded payload supplies a `request_id`, every
frame the handler sends that carries a `request_id` field carries exactly the
supplied value. -/
theorem c2_request_id_echo (backend : Json → Except String String)
    (d : Option String) (raw : String) (loads : Except Unit Json)
    (payload : Json) (rid : Json)
    (hp : parse_payload raw loads = some payload)
    (hr : payload.get "request_id" = some rid) :
    ∀ p, Action.send p ∈ handle_message backend d (.text raw loads) →
      ∀ v, p.get "request_id" = some v → v = rid := by
  intro p hmem v hv
  simp only [handle_message, hp] at hmem
  by_cases hm : otruthy (payload.get "messages") = true
  · rw [if_pos hm, hr] at hmem
    exact dispatch_request_id_echo _ _ _ _ _ _ hmem hv
  · rw [if_neg hm] at hmem
    by_cases ht : otruthy (pyOr (payload.get "text")
        (pyOr (payload.get "content") (payload.get "prompt"))) = true
    · rw [if_pos ht, hr] at hmem
      exact dispatch_request_id_echo _ _ _ _ _ _ hmem hv
    · rw [if_neg ht] at hmem
      simp at hmem
      subst hmem
      rw [send_error_get_request_id] at hv
      simp [otruthy] at hv

/-- Witness for C2 at the spec's example `\x7b"text":"hi","request_id":"42"\x7d`:
the response frame's `request_id` is exactly `"42"`. -/
theorem c2_request_id_echo_witness : Json.str "42" = Json.str "42" :=
  c2_request_id_echo (fun _ => Except.ok "ok!") none
    "\x7b\"text\":\"hi\",\"request_id\":\"42\"\x7d"
    (Except.ok (Json.obj [("text", Json.str "hi"), ("request_id", Json.str "42")]))
    (Json.obj [("text", Json.str "hi"), ("request_id", Json.str "42")])
    (Json.str "42") rfl rfl
    (response_payload none "ok!" (some (Json.str "42")))
    (List.Mem.tail _ (List.Mem.head _))
    (Json.str "42") rfl

end Gateway

namespace Gateway

/-- C3 counterexample: the JSON object frame `\x7b"request_id":"42"\x7d`
supplies a `request_id` but no content; the missing-field error frame the
gateway emits carries no `request_id` at all. -/
theorem c3_protocol_error_counterexample :
    handle_message (fun _ => Except.ok "ok!") none
        (.text "\x7b\"request_id\":\"42\"\x7d"
          (Except.ok (Json.obj [("request_id", Json.str "42")]))) =
      [.send (Json.obj [("type", Json.str "error"),
        ("message", Json.str "缺少messages或text字段。")])] ∧
    (Json.obj [("type", Json.str "error"),
      ("message", Json.str "缺少messages或text字段。")]).get "request_id" = none :=
  ⟨rfl, rfl⟩

/-- C3 (amended): every protocol error — binary frame, decoded non-object, or
missing content — yields exactly one error frame and no close and no backend
call, but the error frame never carries a `request_id`, even when the inbound
frame supplied one. -/
theorem c3_protocol_errors (backend : Json → Except String String) (d : Option String) :
    (∀ data, handle_message backend d (.bytes data) =
      [.send (Json.obj [("type", Json.str "error"),
        ("message", Json.str "仅支持文本消息。")])]) ∧
    (∀ raw j, (∀ fields, j ≠ Json.obj fields) →
      handle_message backend d (.text raw (Except.ok j)) =
        [.send (Json.obj [("type", Json.str "error"),
          ("message", Json.str "消息格式不合法。")])]) ∧
    (∀ raw fields,
      otruthy ((Json.obj fields).get "messages") = false →
      otruthy (pyOr ((Json.obj fields).get "text")
        (pyOr ((Json.obj fields).get "content") ((Json.obj fields).get "prompt"))) = false →
      handle_message backend d (.text raw (Except.ok (Json.obj fields))) =
        [.send (Json.obj [("type", Json.str "error"),
          ("message", Json.str "缺少messages或text字段。")])]) ∧
    (∀ m, (Json.obj [("type", Json.str "error"),
      ("message", Json.str m)]).get "request_id" = none) := by
  refine ⟨?_, ?_, ?_, ?_⟩
  · intro data
    simp [handle_message, send_error, otruthy]
  · intro raw j hj
    have hp : parse_payload raw (Except.ok j) = none := by
      cases j with
      | obj fields => exact absurd rfl (hj fields)
      | null => rfl
      | bool b => rfl
      | num n => rfl
      | str s => rfl
      | arr elems => rfl
    simp [handle_message, hp, send_error, otruthy]
  · intro raw fields hm ht
    have hp : parse_payload raw (Except.ok (Json.obj fields)) = some (Json.obj fields) := rfl
    simp only [handle_message, hp, hm, ht]
    simp [send_error, otruthy]
  · intro m
    rfl

/-- Witness for C3 (amended) at the content-free object `\x7b"foo":1\x7d`. -/
theorem c3_protocol_errors_witness :
    handle_message (fun _ => Except.ok "ok!") none
        (.text "\x7b\"foo\":1\x7d" (Except.ok (Json.obj [("foo", Json.num 1)]))) =
      [.send (Json.obj [("type", Json.str "error"),
        ("message", Json.str "缺少messages或text字段。")])] :=
  (c3_protocol_errors (fun _ => Except.ok "ok!") none).2.2.1
    "\x7b\"foo\":1\x7d" [("foo", Json.num 1)] rfl rfl

/-- C4 counterexample: the empty text frame `""` is not valid JSON, yet
normalization does not produce a single user turn — the handler replies with
the missing-field error and never invokes the backend. -/
theorem c4_nonjson_fallback_counterexample :
    handle_message (fun _ => Except.ok "ok!") none (.text "" (Except.error ())) =
      [.send (Json.obj [("type", Json.str "error"),
        ("message", Json.str "缺少messages或text字段。")])] :=
  rfl

/-- C4 (amended): a non-empty text frame that fails JSON decoding is not
rejected: the whole raw text becomes the fallback envelope, normalization
yields the single turn `role: user / content: raw`, the backend is invoked
with exactly that turn, and the reply frame (success or error) omits
`request_id`. -/
theorem c4_nonjson_fallback (backend : Json → Except String String)
    (d : Option String) (raw : String) (h : raw ≠ "") :
    handle_message backend d (.text raw (Except.error ())) =
      dispatch backend d
        (Json.arr [Json.obj [("role", Json.str "user"), ("content", Json.str raw)]]) none ∧
    (∀ t, backend (Json.arr [Json.obj [("role", Json.str "user"),
        ("content", Json.str raw)]]) = .ok t →
      handle_message backend d (.text raw (Except.error ())) =
        [.callBackend (Json.arr [Json.obj [("role", Json.str "user"),
            ("content", Json.str raw)]]),
         .send (Json.obj [("type", Json.str "response"),
           ("device_id", (d.map Json.str).getD Json.null), ("content", Json.str t)])]) ∧
    (∀ e, backend (Json.arr [Json.obj [("role", Json.str "user"),
        ("content", Json.str raw)]]) = .error e →
      handle_message backend d (.text raw (Except.error ())) =
        [.callBackend (Json.arr [Json.obj [("role", Json.str "user"),
            ("content", Json.str raw)]]),
         .send (Json.obj [("type", Json.str "error"),
           ("message", Json.str ("OpenAI请求失败: " ++ e))])]) := by
  have hp : parse_payload raw (Except.error ()) =
      some (Json.obj [("text", Json.str raw)]) := rfl
  have he : handle_message backend d (.text raw (Except.error ())) =
      dispatch backend d
        (Json.arr [Json.obj [("role", Json.str "user"), ("content", Json.str raw)]]) none := by
    simp [handle_message, hp, Json.get, List.lookup, otruthy, pyOr, Json.truthy, h]
  refine ⟨he, ?_, ?_⟩
  · intro t hb
    rw [he]
    simp [dispatch, hb, response_payload, otruthy]
  · intro e hb
    rw [he]
    simp [dispatch, hb, send_error, otruthy]

/-- Witness for C4 (amended) at the spec's example raw text `hello`. -/
theorem c4_nonjson_fallback_witness :
    handle_message (fun _ => Except.ok "ok!") none (.text "hello" (Except.error ())) =
      dispatch (fun _ => Except.ok "ok!") none
        (Json.arr [Json.obj [("role", Json.str "user"),
          ("content", Json.str "hello")]]) none :=
  (c4_nonjson_fallback (fun _ => Except.ok "ok!") none "hello" (by decide)).1

end Gateway

namespace Gateway

/-- C5 counterexample: `\x7b"messages":5,"text":"hi"\x7d` carries no non-empty
`messages` list, yet the normalizer does not select the flat `text`: the
truthy non-list `messages` value `5` goes to the backend verbatim. -/
theorem c5_flat_selection_counterexample :
    handle_message (fun _ => Except.ok "ok!") none
        (.text "\x7b\"messages\":5,\"text\":\"hi\"\x7d"
          (Except.ok (Json.obj [("messages", Json.num 5), ("text", Json.str "hi")]))) =
      [.callBackend (Json.num 5),
       .send (Json.obj [("type", Json.str "response"), ("device_id", Json.null),
         ("content", Json.str "ok!")])] ∧
    Json.num 5 ≠
      Json.arr [Json.obj [("role", Json.str "user"), ("content", Json.str "hi")]] :=
  ⟨rfl, by simp⟩

/-- C5 (amended): for a JSON object frame whose `messages` field is absent or
falsy, the flat message is the first truthy of `text`, `content`, `prompt`, in
that order, wrapped as the single turn `role: user / content: value`; when all
three are falsy the frame gets the missing-field error. -/
theorem c5_flat_selection (backend : Json → Except String String) (d : Option String)
    (raw : String) (fields : List (String × Json))
    (hm : otruthy ((Json.obj fields).get "messages") = false) :
    (∀ v, (Json.obj fields).get "text" = some v → v.truthy = true →
      handle_message backend d (.text raw (Except.ok (Json.obj fields))) =
        dispatch backend d
          (Json.arr [Json.obj [("role", Json.str "user"), ("content", v)]])
          ((Json.obj fields).get "request_id")) ∧
    (∀ v, otruthy ((Json.obj fields).get "text") = false →
      (Json.obj fields).get "content" = some v → v.truthy = true →
      handle_message backend d (.text raw (Except.ok (Json.obj fields))) =
        dispatch backend d
          (Json.arr [Json.obj [("role", Json.str "user"), ("content", v)]])
          ((Json.obj fields).get "request_id")) ∧
    (∀ v, otruthy ((Json.obj fields).get "text") = false →
      otruthy ((Json.obj fields).get "content") = false →
      (Json.obj fields).get "prompt" = some v → v.truthy = true →
      handle_message backend d (.text raw (Except.ok (Json.obj fields))) =
        dispatch backend d
          (Json.arr [Json.obj [("role", Json.str "user"), ("content", v)]])
          ((Json.obj fields).get "request_id")) ∧
    (otruthy ((Json.obj fields).get "text") = false →
      otruthy ((Json.obj fields).get "content") = false →
      otruthy ((Json.obj fields).get "prompt") = false →
      handle_message backend d (.text raw (Except.ok (Json.obj fields))) =
        [.send (Json.obj [("type", Json.str "error"),
          ("message", Json.str "缺少messages或text字段。")])]) := by
  have hp : parse_payload raw (Except.ok (Json.obj fields)) = some (Json.obj fields) := rfl
  refine ⟨?_, ?_, ?_, ?_⟩
  · intro v hv htv
    have hchain : pyOr ((Json.obj fields).get "text")
        (pyOr ((Json.obj fields).get "content") ((Json.obj fields).get "prompt")) = some v := by
      rw [hv]
      unfold pyOr
      rw [if_pos (by simp [otruthy, htv])]
    simp only [handle_message, hp, hm, hchain]
    simp [otruthy, htv]
  · intro v ht hv htv
    have hchain : pyOr ((Json.obj fields).get "text")
        (pyOr ((Json.obj fields).get "content") ((Json.obj fields).get "prompt")) = some v := by
      unfold pyOr
      rw [if_neg (by simp [ht]), hv, if_pos (by simp [otruthy, htv])]
    simp only [handle_message, hp, hm, hchain]
    simp [otruthy, htv]
  · intro v ht hc hv htv
    have hchain : pyOr ((Json.obj fields).get "text")
        (pyOr ((Json.obj fields).get "content") ((Json.obj fields).get "prompt")) = some v := by
      unfold pyOr
      rw [hv, if_neg (by simp [ht]), if_neg (by simp [hc])]
    simp only [handle_message, hp, hm, hchain]
    simp [otruthy, htv]
  · intro ht hc hpr
    have hchain : otruthy (pyOr ((Json.obj fields).get "text")
        (pyOr ((Json.obj fields).get "content") ((Json.obj fields).get "prompt"))) = false := by
      unfold pyOr
      rw [if_neg (by simp [ht]), if_neg (by simp [hc])]
      exact hpr
    simp only [handle_message, hp, hm, hchain]
    simp [send_error, otruthy]

/-- Witness for C5 (amended): `\x7b"text":"hi"\x7d` is wrapped as the single
user turn with content `"hi"`. -/
theorem c5_flat_selection_witness :
    handle_message (fun _ => Except.ok "ok!") none
        (.text "\x7b\"text\":\"hi\"\x7d" (Except.ok (Json.obj [("text", Json.str "hi")]))) =
      dispatch (fun _ => Except.ok "ok!") none
        (Json.arr [Json.obj [("role", Json.str "user"), ("content", Json.str "hi")]])
        ((Json.obj [("text", Json.str "hi")]).get "request_id") :=
  (c5_flat_selection (fun _ => Except.ok "ok!") none
    "\x7b\"text\":\"hi\"\x7d" [("text", Json.str "hi")] rfl).1 (Json.str "hi") rfl rfl

/-- C6: `_call_openai` returns the first choice's message content, and the
empty string when the upstream response has no choices, no message object, or
a null content. -/
theorem c6_backend_reply (resp : UpstreamResponse) :
    (∀ c m s, resp.choices.head? = some c → c.message = some m → m.content = some s →
      call_openai resp = s) ∧
    (resp.choices = [] → call_openai resp = "") ∧
    (∀ c, resp.choices.head? = some c → c.message = none → call_openai resp = "") ∧
    (∀ c m, resp.choices.head? = some c → c.message = some m → m.content = none →
      call_openai resp = "") := by
  refine ⟨?_, ?_, ?_, ?_⟩
  · intro c m s hc hm hs
    simp only [call_openai, hc, hm, hs, pyStrOr]
    by_cases h : s = ""
    · subst h
      simp
    · simp [h]
  · intro h
    simp only [call_openai, h, List.head?]
  · intro c hc hm
    simp only [call_openai, hc, hm]
  · intro c m hc hm hn
    simp only [call_openai, hc, hm, hn, pyStrOr]

/-- Witness for C6: a one-choice response with content `"hey"` yields `"hey"`. -/
theorem c6_backend_reply_witness :
    call_openai ⟨[⟨some ⟨some "hey"⟩⟩]⟩ = "hey" :=
  (c6_backend_reply ⟨[⟨some ⟨some "hey"⟩⟩]⟩).1 ⟨some ⟨some "hey"⟩⟩ ⟨some "hey"⟩ "hey"
    rfl rfl rfl

end Gateway

namespace Gateway

/-- C7: a backend failure yields exactly one error frame carrying the upstream
detail and never closes the socket; on a two-frame connection each frame is
handled independently, so a later valid frame still gets its normal response
(the failure is per-request, not per-connection). -/
theorem c7_backend_failure (backend : Json → Except String String) (d : Option String)
    (m1 m2 : WsMessage) (msgs1 msgs2 : Json) (rid1 rid2 : Option Json) (e t : String)
    (h1 : handle_message backend d m1 = dispatch backend d msgs1 rid1)
    (hb1 : backend msgs1 = .error e)
    (h2 : handle_message backend d m2 = dispatch backend d msgs2 rid2)
    (hb2 : backend msgs2 = .ok t) :
    handle_message backend d m1 =
      [.callBackend msgs1, .send (send_error ("OpenAI请求失败: " ++ e) rid1)] ∧
    handle_message backend d m2 =
      [.callBackend msgs2, .send (response_payload d t rid2)] ∧
    [m1, m2].flatMap (handle_message backend d) =
      [.callBackend msgs1, .send (send_error ("OpenAI请求失败: " ++ e) rid1)] ++
        [.callBackend msgs2, .send (response_payload d t rid2)] ∧
    Action.close ∉ [m1, m2].flatMap (handle_message backend d) := by
  have he1 : handle_message backend d m1 =
      [.callBackend msgs1, .send (send_error ("OpenAI请求失败: " ++ e) rid1)] := by
    rw [h1]
    simp only [dispatch, hb1]
  have he2 : handle_message backend d m2 =
      [.callBackend msgs2, .send (response_payload d t rid2)] := by
    rw [h2]
    simp only [dispatch, hb2]
  refine ⟨he1, he2, ?_, ?_⟩
  · simp [List.flatMap, he1, he2]
  · intro hc
    rw [List.mem_flatMap] at hc
    obtain ⟨m, _, hm⟩ := hc
    exact close_notin_handle_message backend d m hm

/-- Witness for C7: the backend times out on the turn `"hi"` but answers the
turn `"again"`; the first frame gets the error, the second a normal response. -/
theorem c7_backend_failure_witness :
    handle_message
        (fun m => match m with
          | Json.arr [Json.obj [("role", Json.str "user"), ("content", Json.str "hi")]] =>
            Except.error "Request timed out."
          | _ => Except.ok "ok!") none (.text "hi" (Except.error ())) =
      [.callBackend (Json.arr [Json.obj [("role", Json.str "user"),
          ("content", Json.str "hi")]]),
       .send (send_error ("OpenAI请求失败: " ++ "Request timed out.") none)] ∧
    handle_message
        (fun m => match m with
          | Json.arr [Json.obj [("role", Json.str "user"), ("content", Json.str "hi")]] =>
            Except.error "Request timed out."
          | _ => Except.ok "ok!") none (.text "again" (Except.error ())) =
      [.callBackend (Json.arr [Json.obj [("role", Json.str "user"),
          ("content", Json.str "again")]]),
       .send (response_payload none "ok!" none)] ∧
    [WsMessage.text "hi" (Except.error ()), WsMessage.text "again" (Except.error ())].flatMap
        (handle_message
          (fun m => match m with
            | Json.arr [Json.obj [("role", Json.str "user"), ("content", Json.str "hi")]] =>
              Except.error "Request timed out."
            | _ => Except.ok "ok!") none) =
      [.callBackend (Json.arr [Json.obj [("role", Json.str "user"),
          ("content", Json.str "hi")]]),
       .send (send_error ("OpenAI请求失败: " ++ "Request timed out.") none)] ++
        [.callBackend (Json.arr [Json.obj [("role", Json.str "user"),
            ("content", Json.str "again")]]),
         .send (response_payload none "ok!" none)] ∧
    Action.close ∉
      [WsMessage.text "hi" (Except.error ()), WsMessage.text "again" (Except.error ())].flatMap
        (handle_message
          (fun m => match m with
            | Json.arr [Json.obj [("role", Json.str "user"), ("content", Json.str "hi")]] =>
              Except.error "Request timed out."
            | _ => Except.ok "ok!") none) :=
  c7_backend_failure
    (fun m => match m with
      | Json.arr [Json.obj [("role", Json.str "user"), ("content", Json.str "hi")]] =>
        Except.error "Request timed out."
      | _ => Except.ok "ok!") none
    (.text "hi" (Except.error ())) (.text "again" (Except.error ()))
    (Json.arr [Json.obj [("role", Json.str "user"), ("content", Json.str "hi")]])
    (Json.arr [Json.obj [("role", Json.str "user"), ("content", Json.str "again")]])
    none none "Request timed out." "ok!" rfl rfl rfl rfl

/-- C8: a binary frame yields exactly the only-text error frame, no backend
call, no close, and a following frame on the same connection is handled as
usual. -/
theorem c8_binary_frame (backend : Json → Except String String) (d : Option String)
    (data : List Nat) (m2 : WsMessage) :
    handle_message backend d (.bytes data) =
      [.send (Json.obj [("type", Json.str "error"),
        ("message", Json.str "仅支持文本消息。")])] ∧
    (∀ ms, Action.callBackend ms ∉ handle_message backend d (.bytes data)) ∧
    Action.close ∉ handle_message backend d (.bytes data) ∧
    [WsMessage.bytes data, m2].flatMap (handle_message backend d) =
      [.send (Json.obj [("type", Json.str "error"),
        ("message", Json.str "仅支持文本消息。")])] ++ handle_message backend d m2 := by
  have he : handle_message backend d (.bytes data) =
      [.send (Json.obj [("type", Json.str "error"),
        ("message", Json.str "仅支持文本消息。")])] := by
    simp [handle_message, send_error, otruthy]
  refine ⟨he, ?_, ?_, ?_⟩
  · intro ms
    rw [he]
    simp
  · rw [he]
    simp
  · simp [List.flatMap, he]

end Gateway

namespace Gateway

/-- C9: the device id is read from a header dict keyed by lower-cased names,
so two handshakes whose headers agree after lower-casing the keys produce the
same device id and the same connection behavior — any letter casing of
`device-id` is treated like lower case. -/
theorem c9_header_case (h1 h2 : List (String × String))
    (hlow : headers_dict h1 = headers_dict h2) :
    get_device_id h1 = get_device_id h2 ∧
    ∀ cfg backend msgs,
      handle_connection cfg backend h1 msgs = handle_connection cfg backend h2 msgs := by
  have hd : get_device_id h1 = get_device_id h2 := by
    unfold get_device_id
    rw [hlow]
  refine ⟨hd, ?_⟩
  intro cfg backend msgs
  unfold handle_connection
  rw [hd]

/-- Witness for C9: `DEVICE-ID` and `device-id` headers behave identically. -/
theorem c9_header_case_witness :
    get_device_id [("DEVICE-ID", "dev1")] = get_device_id [("device-id", "dev1")] ∧
    ∀ cfg backend msgs,
      handle_connection cfg backend [("DEVICE-ID", "dev1")] msgs =
        handle_connection cfg backend [("device-id", "dev1")] msgs :=
  c9_header_case [("DEVICE-ID", "dev1")] [("device-id", "dev1")] (by decide)

/-- C10: a truthy `messages` value of any shape — non-list or ill-shaped list
alike — undergoes no validation: the handler forwards it verbatim to the
backend as its first action. -/
theorem c10_messages_verbatim (backend : Json → Except String String)
    (d : Option String) (raw : String) (fields : List (String × Json)) (m : Json)
    (hget : (Json.obj fields).get "messages" = some m)
    (htr : m.truthy = true) :
    handle_message backend d (.text raw (Except.ok (Json.obj fields))) =
      dispatch backend d m ((Json.obj fields).get "request_id") ∧
    ∃ rest, handle_message backend d (.text raw (Except.ok (Json.obj fields))) =
      Action.callBackend m :: rest := by
  have hp : parse_payload raw (Except.ok (Json.obj fields)) = some (Json.obj fields) := rfl
  have he : handle_message backend d (.text raw (Except.ok (Json.obj fields))) =
      dispatch backend d m ((Json.obj fields).get "request_id") := by
    simp only [handle_message, hp, hget]
    simp [otruthy, htr]
  refine ⟨he, ?_⟩
  rw [he]
  unfold dispatch
  cases backend m with
  | error exc => exact ⟨_, rfl⟩
  | ok t => exact ⟨_, rfl⟩

/-- Witness for C10: `messages` bound to the bare number `5` is forwarded
verbatim. -/
theorem c10_messages_verbatim_witness :
    handle_message (fun _ => Except.ok "ok!") none
        (.text "\x7b\"messages\":5\x7d" (Except.ok (Json.obj [("messages", Json.num 5)]))) =
      dispatch (fun _ => Except.ok "ok!") none (Json.num 5)
        ((Json.obj [("messages", Json.num 5)]).get "request_id") ∧
    ∃ rest, handle_message (fun _ => Except.ok "ok!") none
        (.text "\x7b\"messages\":5\x7d" (Except.ok (Json.obj [("messages", Json.num 5)]))) =
      Action.callBackend (Json.num 5) :: rest :=
  c10_messages_verbatim (fun _ => Except.ok "ok!") none
    "\x7b\"messages\":5\x7d" [("messages", Json.num 5)] (Json.num 5) rfl rfl

end Gateway
